import Mathlib

/-!
Shallow embedding of the builder + validation layer of the repository:
`src/types/embed.rs` (Color codec, Embed data model, EmbedBuilder,
EmbedFooter, EmbedField, EmbedThumbnail, ...) and `src/types/modal.rs`
(Modal, ModalBuilder, ModalConversionError).

Conventions of the embedding:
* Rust `u32` / `u8` values are Lean `Nat`; where the Rust code masks with
  `0xff` before an `as u8` cast, the cast is the identity, so no extra
  `% 256` is inserted.
* Rust `String::len` (UTF-8 byte count) is modelled by
  `String.utf8ByteSize`.
* A Rust `panic!` is modelled as the `Except.error` branch of a fallible
  function; the `BuilderPanic` constructors record which panic site fired.
* `log::warn!` followed by `return self` is modelled as returning the
  builder unchanged (the diagnostic is a side channel with no effect on
  the value).
* The opaque external types (`MessageComponent`, `chrono::DateTime<Utc>`)
  are modelled as inert wrapper structures, exactly as the code treats
  them.
-/

namespace RustyInteraction

/-- Opaque external component type from the component subsystem; the modal
code stores it without introspection (`super::components::MessageComponent`). -/
structure MessageComponent where
  val : Nat
deriving DecidableEq

/-- Opaque stand-in for `chrono::DateTime<Utc>`; the embed code only stores
it. -/
structure DateTime where
  ticks : Int
deriving DecidableEq

/-- `Color` from src/types/embed.rs: three 8-bit unsigned channels.
Channel values produced by the code are always `< 256`. -/
structure Color where
  red : Nat
  green : Nat
  blue : Nat
deriving DecidableEq

/-- `impl Default for Color`: the fixed constant (222, 165, 132). -/
def Color.default : Color :=
  { red := 222, green := 165, blue := 132 }

/-- `impl From<u32> for Color`: red = bits 16-23, green = bits 8-15,
blue = bits 0-7. The `as u8` casts follow a `& 0xff` mask, so they are
the identity and are not repeated here. -/
def Color.fromU32 (a : Nat) : Color :=
  { red := (a >>> 16) &&& 0xff
    green := (a >>> 8) &&& 0xff
    blue := a &&& 0xff }

/-- `impl From<Color> for u32`:
`((c.red as u32) << 16) | ((c.green as u32) << 8) | c.blue as u32`.
With channels `< 256` the result is `< 2^24`, so no `u32` overflow can
occur and no modulus is needed. -/
def Color.toU32 (c : Color) : Nat :=
  (c.red <<< 16) ||| (c.green <<< 8) ||| c.blue

/-- `EmbedFooter` from src/types/embed.rs. -/
structure EmbedFooter where
  text : String
  icon_url : Option String
  proxy_icon_url : Option String
deriving DecidableEq

/-- `impl Default for EmbedFooter`: empty text, no icon urls. -/
def EmbedFooter.default : EmbedFooter :=
  { text := "", icon_url := none, proxy_icon_url := none }

/-- `EmbedField` from src/types/embed.rs. -/
structure EmbedField where
  name : String
  value : String
  inline : Option Bool
deriving DecidableEq

/-- `impl Default for EmbedField`: empty name and value, no inline flag. -/
def EmbedField.default : EmbedField :=
  { name := "", value := "", inline := none }

/-- `EmbedThumbnail` from src/types/embed.rs (derived `Default`: all
fields `None`). -/
structure EmbedThumbnail where
  url : Option String
  proxy_url : Option String
  height : Option Nat
  width : Option Nat
deriving DecidableEq

/-- `EmbedVideo` from src/types/embed.rs (the `witdh` typo is the
source's). -/
structure EmbedVideo where
  url : String
  proxy_url : String
  height : Int
  witdh : Int
deriving DecidableEq

/-- `EmbedImage` from src/types/embed.rs. -/
structure EmbedImage where
  url : String
  proxy_url : Option String
  height : Int
  width : Int
deriving DecidableEq

/-- `EmbedProvider` from src/types/embed.rs. -/
structure EmbedProvider where
  name : String
  url : String
deriving DecidableEq

/-- `EmbedAuthor` from src/types/embed.rs. -/
structure EmbedAuthor where
  name : Option String
  url : Option String
  icon_url : Option String
  proxy_icon_url : Option String
deriving DecidableEq

/-- `Embed` from src/types/embed.rs. `color` is stored as the packed
`u32`, `fields` as an optional vector. -/
structure Embed where
  title : Option String
  description : Option String
  url : Option String
  timestamp : Option DateTime
  color : Option Nat
  footer : Option EmbedFooter
  image : Option EmbedImage
  thumbnail : Option EmbedThumbnail
  video : Option EmbedVideo
  provider : Option EmbedProvider
  author : Option EmbedAuthor
  fields : Option (List EmbedField)
deriving DecidableEq

/-- `impl Default for Embed`: every attribute `None` except `color`,
which is `Some(Color::default().into())`. -/
def Embed.default : Embed :=
  { title := none
    description := none
    url := none
    timestamp := none
    color := some (Color.toU32 Color.default)
    footer := none
    image := none
    thumbnail := none
    video := none
    provider := none
    author := none
    fields := none }

/-- The panic sites of the fallible embed builders. A Rust `panic!` is
modelled as an `Except.error` carrying the constructor of the site that
fired; the original messages are recorded in the doc comments. -/
inductive BuilderPanic where
  /-- `"Embed title length is more than 256 characters."` -/
  | titleTooLong
  /-- `"Footer text exceeded 2048 characters"` -/
  | footerTextTooLong
deriving DecidableEq

/-- `EmbedBuilder` from src/types/embed.rs: wraps one accumulating
`Embed`. -/
structure EmbedBuilder where
  obj : Embed
deriving DecidableEq

/-- Derived `Default` for `EmbedBuilder`, which uses `Embed::default()`. -/
def EmbedBuilder.default : EmbedBuilder :=
  { obj := Embed.default }

/-- `EmbedBuilder::title`: panics when the title byte length exceeds 256,
otherwise sets the title. -/
def EmbedBuilder.title (self : EmbedBuilder) (title : String) :
    Except BuilderPanic EmbedBuilder :=
  let t := title
  if t.utf8ByteSize > 256 then
    .error BuilderPanic.titleTooLong
  else
    .ok { self with obj := { self.obj with title := some t } }

/-- `EmbedBuilder::add_field`: when no field vector exists yet it becomes
the singleton; when 25 or more fields are present the call warns and
ignores the field; otherwise the field is pushed at the end. -/
def EmbedBuilder.add_field (self : EmbedBuilder) (field : EmbedField) :
    EmbedBuilder :=
  match self.obj.fields with
  | none => { self with obj := { self.obj with fields := some [field] } }
  | some f =>
      if f.length ≥ 25 then
        self
      else
        { self with obj := { self.obj with fields := some (f ++ [field]) } }

/-- `EmbedFooter::text` (renamed: the field projection already owns the
name `EmbedFooter.text`): panics when the byte length exceeds 2048,
otherwise sets the text. -/
def EmbedFooter.set_text (self : EmbedFooter) (text : String) :
    Except BuilderPanic EmbedFooter :=
  let t := text
  if t.utf8ByteSize > 2048 then
    .error BuilderPanic.footerTextTooLong
  else
    .ok { self with text := t }

/-- `EmbedFooter::icon_url` (renamed: the field projection already owns
the name): unconditionally sets the icon url. -/
def EmbedFooter.set_icon_url (self : EmbedFooter) (url : String) :
    EmbedFooter :=
  { self with icon_url := some url }

/-- `EmbedFooter::proxy_url`: unconditionally sets the proxied icon
url. -/
def EmbedFooter.proxy_url (self : EmbedFooter) (url : String) :
    EmbedFooter :=
  { self with proxy_icon_url := some url }

/-- Footers reachable through the builder interface: the default footer
closed under the three setters (for `set_text`, under its successful
outcomes). -/
inductive EmbedFooter.Reachable : EmbedFooter → Prop where
  | base : EmbedFooter.Reachable EmbedFooter.default
  | set_text {f g : EmbedFooter} {t : String} : EmbedFooter.Reachable f →
      f.set_text t = .ok g → EmbedFooter.Reachable g
  | set_icon_url {f : EmbedFooter} (u : String) : EmbedFooter.Reachable f →
      EmbedFooter.Reachable (f.set_icon_url u)
  | proxy_url {f : EmbedFooter} (u : String) : EmbedFooter.Reachable f →
      EmbedFooter.Reachable (f.proxy_url u)

/-- `EmbedThumbnail::proxy_url` (renamed: the field projection already
owns the name). The source assigns `self.url = Some(u)` — the `url`
field, not `proxy_url`. -/
def EmbedThumbnail.set_proxy_url (self : EmbedThumbnail) (url : String) :
    EmbedThumbnail :=
  { self with url := some url }

/-- `Modal` from src/types/modal.rs. -/
structure Modal where
  custom_id : String
  title : String
  components : List MessageComponent
deriving DecidableEq

/-- Derived `Default` for `Modal`: empty id, empty title, no
components. -/
def Modal.default : Modal :=
  { custom_id := "", title := "", components := [] }

/-- `ModalBuilder` from src/types/modal.rs: wraps one accumulating
`Modal`. -/
structure ModalBuilder where
  obj : Modal
deriving DecidableEq

/-- Derived `Default` for `ModalBuilder`, which uses `Modal`'s derived
default. -/
def ModalBuilder.default : ModalBuilder :=
  { obj := Modal.default }

/-- `ModalBuilder::custom_id`: an id longer than 100 bytes is warned
about and ignored; otherwise the id is set. -/
def ModalBuilder.custom_id (self : ModalBuilder) (id : String) :
    ModalBuilder :=
  if id.utf8ByteSize > 100 then
    self
  else
    { self with obj := { self.obj with custom_id := id } }

/-- `ModalBuilder::title`: sets the title unconditionally. -/
def ModalBuilder.title (self : ModalBuilder) (title : String) :
    ModalBuilder :=
  { self with obj := { self.obj with title := title } }

/-- `ModalBuilder::add_component`: with 5 or more components already
present the call warns and ignores the component; otherwise it is pushed
at the end. -/
def ModalBuilder.add_component (self : ModalBuilder)
    (component : MessageComponent) : ModalBuilder :=
  if self.obj.components.length ≥ 5 then
    self
  else
    { self with obj :=
        { self.obj with components := self.obj.components ++ [component] } }

/-- `ModalConversionError` from src/types/modal.rs. -/
inductive ModalConversionError where
  | MissingCustomId
  | MissingTitle
  | MissingComponents
  | TooMuchComponents
deriving DecidableEq

/-- `impl Builder<Modal> for ModalBuilder`: the finalization checks, in
source order (empty id, empty title, no components, more than five
components), returning the accumulated modal when all pass. -/
def ModalBuilder.build (self : ModalBuilder) :
    Except ModalConversionError Modal :=
  if self.obj.custom_id.utf8ByteSize < 1 then
    .error ModalConversionError.MissingCustomId
  else if self.obj.title.utf8ByteSize < 1 then
    .error ModalConversionError.MissingTitle
  else if self.obj.components.length < 1 then
    .error ModalConversionError.MissingComponents
  else if self.obj.components.length > 5 then
    .error ModalConversionError.TooMuchComponents
  else
    .ok self.obj

/-- Modal builders reachable through the public interface: the default
builder closed under `custom_id`, `title` and `add_component`. -/
inductive ModalBuilder.Reachable : ModalBuilder → Prop where
  | base : ModalBuilder.Reachable ModalBuilder.default
  | custom_id {b : ModalBuilder} (s : String) : ModalBuilder.Reachable b →
      ModalBuilder.Reachable (b.custom_id s)
  | title {b : ModalBuilder} (s : String) : ModalBuilder.Reachable b →
      ModalBuilder.Reachable (b.title s)
  | add_component {b : ModalBuilder} (c : MessageComponent) :
      ModalBuilder.Reachable b → ModalBuilder.Reachable (b.add_component c)

/-- Claim C1: decoding any 24-bit integer into a `Color` via `From<u32>` and
re-encoding via `From<Color>` yields the integer back exactly; for an
arbitrary `u32` the round-trip discards the bits above bit 23, i.e.
returns the value modulo 2^24. -/
theorem color_roundtrip (x : Nat) (hx : x < 2 ^ 32) :
    Color.toU32 (Color.fromU32 x) = x % 2 ^ 24 ∧
    (x < 2 ^ 24 → Color.toU32 (Color.fromU32 x) = x) := by
  have key : ∀ a b c : Nat, b < 2 ^ 8 → c < 2 ^ 8 →
      (a * 2 ^ 16 ||| b * 2 ^ 8) ||| c = a * 2 ^ 16 + b * 2 ^ 8 + c := by
    intro a b c hb hc
    have h1 : b * 2 ^ 8 < 2 ^ 16 := by
      have : b ≤ 2 ^ 8 - 1 := by omega
      calc b * 2 ^ 8 ≤ (2 ^ 8 - 1) * 2 ^ 8 := Nat.mul_le_mul_right _ this
        _ < 2 ^ 16 := by norm_num
    have e1 : a * 2 ^ 16 ||| b * 2 ^ 8 = a * 2 ^ 16 + b * 2 ^ 8 := by
      rw [Nat.mul_comm a (2 ^ 16)]
      exact (Nat.mul_add_lt_is_or h1 a).symm
    have e2 : a * 2 ^ 16 + b * 2 ^ 8 = 2 ^ 8 * (a * 2 ^ 8 + b) := by ring
    rw [e1, e2, (Nat.mul_add_lt_is_or hc (a * 2 ^ 8 + b)).symm]
  have h255 : (0xff : Nat) = 2 ^ 8 - 1 := by norm_num
  have main : Color.toU32 (Color.fromU32 x) = x % 2 ^ 24 := by
    simp only [Color.toU32, Color.fromU32, h255, Nat.and_pow_two_sub_one_eq_mod,
      Nat.shiftRight_eq_div_pow, Nat.shiftLeft_eq]
    rw [key (x / 2 ^ 16 % 2 ^ 8) (x / 2 ^ 8 % 2 ^ 8) (x % 2 ^ 8)
      (Nat.mod_lt _ (by norm_num)) (Nat.mod_lt _ (by norm_num))]
    omega
  exact ⟨main, fun h24 => by rw [main, Nat.mod_eq_of_lt h24]⟩

/-- Claim C1 witness: the round-trip at the concrete input `0xFFABCDEF`
(high byte set) returns `0xABCDEF`. -/
theorem color_roundtrip_witness :
    Color.toU32 (Color.fromU32 0xFFABCDEF) = 0xFFABCDEF % 2 ^ 24 :=
  (color_roundtrip 0xFFABCDEF (by norm_num)).1

/-- Claim C2: `ModalBuilder::build` checks violations in the fixed order
empty custom id, then empty title, then zero components, then more than
five components, and returns the first violation's error; in particular
a builder whose modal simultaneously has an empty custom id, an empty
title and zero components gets `MissingCustomId` and no other variant. -/
theorem modalBuilder_build_order (b : ModalBuilder) :
    (b.obj.custom_id.utf8ByteSize = 0 →
      b.build = .error ModalConversionError.MissingCustomId) ∧
    (b.obj.custom_id.utf8ByteSize ≠ 0 → b.obj.title.utf8ByteSize = 0 →
      b.build = .error ModalConversionError.MissingTitle) ∧
    (b.obj.custom_id.utf8ByteSize ≠ 0 → b.obj.title.utf8ByteSize ≠ 0 →
      b.obj.components.length = 0 →
      b.build = .error ModalConversionError.MissingComponents) ∧
    (b.obj.custom_id.utf8ByteSize ≠ 0 → b.obj.title.utf8ByteSize ≠ 0 →
      b.obj.components.length > 5 →
      b.build = .error ModalConversionError.TooMuchComponents) := by
  refine ⟨?_, ?_, ?_, ?_⟩
  · intro h1
    simp [ModalBuilder.build, Nat.lt_one_iff, h1]
  · intro h1 h2
    simp [ModalBuilder.build, Nat.lt_one_iff, h1, h2]
  · intro h1 h2 h3
    simp [ModalBuilder.build, Nat.lt_one_iff, h1, h2, h3]
  · intro h1 h2 h3
    have hne : b.obj.components.length ≠ 0 := by omega
    simp [ModalBuilder.build, Nat.lt_one_iff, h1, h2, hne, h3]

/-- Claim C2 witness: the default builder has empty id, empty title and
zero components, and building it reports `MissingCustomId`. -/
theorem modalBuilder_build_order_witness :
    ModalBuilder.build ModalBuilder.default =
      .error ModalConversionError.MissingCustomId :=
  (modalBuilder_build_order ModalBuilder.default).1 rfl

/-- Claim C3: `EmbedBuilder::title` sets the title (leaving the rest of
the builder state intact) when the text length is at most 256, and fails
with the title length violation, producing no updated builder, when the
length exceeds 256. -/
theorem embedBuilder_title_spec (b : EmbedBuilder) (t : String) :
    (t.utf8ByteSize ≤ 256 →
      b.title t = .ok { b with obj := { b.obj with title := some t } }) ∧
    (t.utf8ByteSize > 256 →
      b.title t = .error BuilderPanic.titleTooLong) := by
  constructor
  · intro h
    have hn : ¬ t.utf8ByteSize > 256 := by omega
    simp [EmbedBuilder.title, hn]
  · intro h
    simp [EmbedBuilder.title, h]

/-- Claim C3 witness: setting the short title on the default builder
succeeds and stores it. -/
theorem embedBuilder_title_spec_witness :
    EmbedBuilder.title EmbedBuilder.default "hi" =
      .ok { EmbedBuilder.default with
              obj := { EmbedBuilder.default.obj with title := some "hi" } } :=
  (embedBuilder_title_spec EmbedBuilder.default "hi").1 (by decide)

/-- Claim C4: with strictly fewer than 25 accumulated fields,
`EmbedBuilder::add_field` appends the field at the end, preserving the
order of previously added fields; with exactly 25 fields the call leaves
the builder unchanged (soft no-op); hence the field count never exceeds
25. -/
theorem embedBuilder_add_field_spec (b : EmbedBuilder) (f : EmbedField) :
    ((b.obj.fields.getD []).length < 25 →
      (b.add_field f).obj.fields = some ((b.obj.fields.getD []) ++ [f])) ∧
    ((b.obj.fields.getD []).length = 25 → b.add_field f = b) ∧
    ((b.obj.fields.getD []).length ≤ 25 →
      ((b.add_field f).obj.fields.getD []).length ≤ 25) := by
  obtain ⟨obj⟩ := b
  rcases hf : obj.fields with _ | f0
  · refine ⟨?_, ?_, ?_⟩ <;> intro h <;>
      simp_all [EmbedBuilder.add_field, hf]
  · refine ⟨?_, ?_, ?_⟩ <;> intro h <;> simp_all only [Option.getD_some]
    · have hn : ¬ f0.length ≥ 25 := by omega
      simp [EmbedBuilder.add_field, hf, hn]
    · have hy : f0.length ≥ 25 := by omega
      simp [EmbedBuilder.add_field, hf, hy]
    · by_cases hc : f0.length ≥ 25
      · simp [EmbedBuilder.add_field, hf, hc]
        omega
      · simp [EmbedBuilder.add_field, hf, hc]
        omega

/-- Claim C4 witness: adding a field to the default builder (zero fields)
yields the singleton field list. -/
theorem embedBuilder_add_field_spec_witness :
    (EmbedBuilder.add_field EmbedBuilder.default EmbedField.default).obj.fields =
      some [EmbedField.default] :=
  (embedBuilder_add_field_spec EmbedBuilder.default EmbedField.default).1
    (by decide)

/-- Claim C5: for a builder with non-empty custom id and non-empty title,
`build` succeeds with exactly 1 component and with exactly 5 components,
and fails with `MissingComponents` with 0 components; independently,
`add_component` on a builder that already holds 5 components leaves the
list unchanged at 5. -/
theorem modal_component_bounds (b : ModalBuilder) (c : MessageComponent) :
    (b.obj.custom_id.utf8ByteSize ≥ 1 → b.obj.title.utf8ByteSize ≥ 1 →
      ((b.obj.components.length = 1 → b.build = .ok b.obj) ∧
       (b.obj.components.length = 5 → b.build = .ok b.obj) ∧
       (b.obj.components.length = 0 →
         b.build = .error ModalConversionError.MissingComponents))) ∧
    (b.obj.components.length = 5 → b.add_component c = b) := by
  constructor
  · intro hid ht
    have hid' : b.obj.custom_id.utf8ByteSize ≠ 0 := by omega
    have ht' : b.obj.title.utf8ByteSize ≠ 0 := by omega
    refine ⟨?_, ?_, ?_⟩ <;> intro h
    · have hne : b.obj.components.length ≠ 0 := by omega
      have hle : ¬ b.obj.components.length > 5 := by omega
      simp [ModalBuilder.build, Nat.lt_one_iff, hid', ht', hne, hle]
    · have hne : b.obj.components.length ≠ 0 := by omega
      have hle : ¬ b.obj.components.length > 5 := by omega
      simp [ModalBuilder.build, Nat.lt_one_iff, hid', ht', hne, hle]
    · simp [ModalBuilder.build, Nat.lt_one_iff, hid', ht', h]
  · intro h
    have hy : b.obj.components.length ≥ 5 := by omega
    simp [ModalBuilder.add_component, hy]

/-- Claim C5 witness: a concrete builder with id `"a"`, title `"t"` and
one component builds successfully. -/
theorem modal_component_bounds_witness :
    ModalBuilder.build ⟨⟨"a", "t", [⟨0⟩]⟩⟩ = .ok ⟨"a", "t", [⟨0⟩]⟩ :=
  (((modal_component_bounds ⟨⟨"a", "t", [⟨0⟩]⟩⟩ ⟨0⟩).1
      (by decide) (by decide)).1) rfl

/-- Claim C6: `ModalBuilder::custom_id` with text longer than 100 is a
no-op that leaves the whole builder (in particular the previously stored
custom id) unchanged; with length at most 100 it stores the text as the
custom id. -/
theorem modalBuilder_custom_id_spec (b : ModalBuilder) (id : String) :
    (id.utf8ByteSize > 100 → b.custom_id id = b) ∧
    (id.utf8ByteSize ≤ 100 →
      b.custom_id id = { b with obj := { b.obj with custom_id := id } }) := by
  constructor
  · intro h
    simp [ModalBuilder.custom_id, h]
  · intro h
    have hn : ¬ id.utf8ByteSize > 100 := by omega
    simp [ModalBuilder.custom_id, hn]

/-- Claim C6 witness: setting the short id `"a"` on the default builder
stores it. -/
theorem modalBuilder_custom_id_spec_witness :
    ModalBuilder.custom_id ModalBuilder.default "a" =
      { ModalBuilder.default with
          obj := { ModalBuilder.default.obj with custom_id := "a" } } :=
  (modalBuilder_custom_id_spec ModalBuilder.default "a").2 (by decide)

/-- Claim C7: `EmbedFooter::text` succeeds and stores the text when its
length is at most 2048 (2048 itself succeeds) and fails with the footer
length violation when the length is 2049 or more; consequently every
footer reachable through the builder interface has text of length at
most 2048. -/
theorem embedFooter_text_spec (f : EmbedFooter) (t : String) :
    (t.utf8ByteSize ≤ 2048 → f.set_text t = .ok { f with text := t }) ∧
    (t.utf8ByteSize ≥ 2049 →
      f.set_text t = .error BuilderPanic.footerTextTooLong) ∧
    (∀ g : EmbedFooter, EmbedFooter.Reachable g →
      g.text.utf8ByteSize ≤ 2048) := by
  refine ⟨?_, ?_, ?_⟩
  · intro h
    have hn : ¬ t.utf8ByteSize > 2048 := by omega
    simp [EmbedFooter.set_text, hn]
  · intro h
    have hy : t.utf8ByteSize > 2048 := by omega
    simp [EmbedFooter.set_text, hy]
  · intro g hg
    induction hg with
    | base => decide
    | set_text hf hok ih =>
        rename_i f' g' t'
        by_cases hc : t'.utf8ByteSize > 2048
        · simp [EmbedFooter.set_text, hc] at hok
        · simp [EmbedFooter.set_text, hc] at hok
          rw [← hok]
          simpa using Nat.not_lt.mp hc
    | set_icon_url u hf ih => simpa [EmbedFooter.set_icon_url] using ih
    | proxy_url u hf ih => simpa [EmbedFooter.proxy_url] using ih

/-- Claim C7 witness: storing a short footer text on the default footer
succeeds, and the default footer itself satisfies the invariant. -/
theorem embedFooter_text_spec_witness :
    EmbedFooter.set_text EmbedFooter.default "hi" =
        .ok { EmbedFooter.default with text := "hi" } ∧
      EmbedFooter.default.text.utf8ByteSize ≤ 2048 :=
  ⟨(embedFooter_text_spec EmbedFooter.default "hi").1 (by decide),
   (embedFooter_text_spec EmbedFooter.default "hi").2.2
     EmbedFooter.default EmbedFooter.Reachable.base⟩

/-- Claim C8: the default `Embed` has every optional attribute absent
except `color`, which is the packed encoding of the fixed default
`Color`, and that encoding is nonzero (the default color is not
black). -/
theorem embed_default_spec :
    Embed.default.title = none ∧ Embed.default.description = none ∧
    Embed.default.url = none ∧ Embed.default.timestamp = none ∧
    Embed.default.footer = none ∧ Embed.default.image = none ∧
    Embed.default.thumbnail = none ∧ Embed.default.video = none ∧
    Embed.default.provider = none ∧ Embed.default.author = none ∧
    Embed.default.fields = none ∧
    Embed.default.color = some (Color.toU32 Color.default) ∧
    Color.toU32 Color.default ≠ 0 := by
  refine ⟨rfl, rfl, rfl, rfl, rfl, rfl, rfl, rfl, rfl, rfl, rfl, rfl, ?_⟩
  decide

/-- Claim C9: every modal builder reachable from the default one through
the public operations (`custom_id`, `title`, `add_component`) holds at
most 5 components, and consequently `build` never returns the
`TooMuchComponents` error on such a builder. -/
theorem modalBuilder_component_invariant (b : ModalBuilder)
    (h : ModalBuilder.Reachable b) :
    b.obj.components.length ≤ 5 ∧
    b.build ≠ .error ModalConversionError.TooMuchComponents := by
  have hlen : b.obj.components.length ≤ 5 := by
    induction h with
    | base => decide
    | custom_id s hb ih =>
        simp only [ModalBuilder.custom_id]
        split
        · exact ih
        · simpa using ih
    | title s hb ih => simpa [ModalBuilder.title] using ih
    | add_component c hb ih =>
        simp only [ModalBuilder.add_component]
        split
        · exact ih
        · rename_i hlt
          simp only [List.length_append, List.length_singleton]
          omega
  refine ⟨hlen, ?_⟩
  unfold ModalBuilder.build
  split
  · simp
  · split
    · simp
    · split
      · simp
      · split
        · rename_i h5
          omega
        · simp

/-- Claim C9 witness: the default builder is reachable, holds at most 5
components, and building it does not report `TooMuchComponents`. -/
theorem modalBuilder_component_invariant_witness :
    ModalBuilder.default.obj.components.length ≤ 5 ∧
    ModalBuilder.default.build ≠
      .error ModalConversionError.TooMuchComponents :=
  modalBuilder_component_invariant ModalBuilder.default
    ModalBuilder.Reachable.base

/-- Claim C10: `EmbedThumbnail::proxy_url` stores its argument in the
thumbnail's `url` field (overwriting any previous value) and leaves the
`proxy_url` field — and the dimensions — unchanged; in particular the
`proxy_url` field stays `None` if it was never set by other means. -/
theorem embedThumbnail_proxy_url_spec (t : EmbedThumbnail) (u : String) :
    (t.set_proxy_url u).url = some u ∧
    (t.set_proxy_url u).proxy_url = t.proxy_url ∧
    (t.set_proxy_url u).height = t.height ∧
    (t.set_proxy_url u).width = t.width :=
  ⟨rfl, rfl, rfl, rfl⟩

end RustyInteraction
